import Mathlib

/-!
Verification of the orbit-agent orchestration core against its specification.

The Python sources are shallowly embedded: each Lean definition mirrors one
Python function from the repository (file and symbol named in its doc
comment).  External collaborators (the language-model completion service,
the tool registry, the repositories) are modelled as explicit parameters:
a completion call is an `Except String String` value, where `.error e`
models the call raising an exception with message `e` and `.ok t` models it
returning the text `t`.
-/

namespace Orbit

/-- Universe of Python/JSON values as they flow through the agent:
`None`, booleans, integers, strings, lists and dicts (dicts as key/value
association lists in insertion order; a later binding shadows an earlier
one, as in Python).  Floating-point literals are outside the model; no
theorem below evaluates the JSON parser on a float literal. -/
inductive PyVal where
  | vNull : PyVal
  | vBool : Bool → PyVal
  | vInt : Int → PyVal
  | vStr : String → PyVal
  | vList : List PyVal → PyVal
  | vDict : List (String × PyVal) → PyVal
deriving Repr, Inhabited

namespace PyVal

/-- Python truthiness: `None`, `False`, `0`, `""`, `[]`, and an empty dict
are falsy; everything else is truthy. -/
def truthy : PyVal → Bool
  | vNull => false
  | vBool b => b
  | vInt n => n != 0
  | vStr s => s ≠ ""
  | vList l => !l.isEmpty
  | vDict d => !d.isEmpty

/-- `d[k]` lookup on a dict association list: the LAST binding of a key
wins, matching the way `json.loads` builds a Python dict when a key is
repeated. -/
def dictFind (d : List (String × PyVal)) (k : String) : Option PyVal :=
  (d.filter (fun p => p.1 = k)).getLast?.map (·.2)

/-- Python `dict.get(k, default)`. -/
def dictGetD (d : List (String × PyVal)) (k : String) (dflt : PyVal) : PyVal :=
  (dictFind d k).getD dflt

/-- Python `k in dict`. -/
def dictHas (d : List (String × PyVal)) (k : String) : Bool :=
  (dictFind d k).isSome

/-- Python type name of a value, used to reproduce `AttributeError`
messages such as `'int' object has no attribute 'get'`. -/
def typeName : PyVal → String
  | vNull => "NoneType"
  | vBool _ => "bool"
  | vInt _ => "int"
  | vStr _ => "str"
  | vList _ => "list"
  | vDict _ => "dict"

end PyVal

open PyVal

/-! ### Python string helpers -/

/-- The whitespace characters removed by Python's default `str.strip()`
(restricted to ASCII, which is all the sources produce). -/
def isPyWhitespace (c : Char) : Bool :=
  c = ' ' || c = '\t' || c = '\n' || c = '\r' || c = Char.ofNat 11 || c = Char.ofNat 12

/-- Python `str.strip()` with no arguments. -/
def pyStrip (s : String) : String :=
  String.mk (((s.toList.dropWhile isPyWhitespace).reverse.dropWhile isPyWhitespace).reverse)

/-- Worker for `pySplit`: scan the input, cutting at each occurrence of
the (non-empty) separator.  `fuel` is structural so that the kernel can
evaluate the definition; `pySplit` supplies enough for the whole input. -/
def splitAux (sep : List Char) : Nat → List Char → List Char → List (List Char) →
    List (List Char)
  | 0, acc, cs, out => (acc.reverse ++ cs) :: out
  | fuel + 1, acc, cs, out =>
    match cs with
    | [] => acc.reverse :: out
    | c :: rest =>
      if sep.isPrefixOf (c :: rest) then
        splitAux sep fuel [] (List.drop sep.length (c :: rest)) (acc.reverse :: out)
      else
        splitAux sep fuel (c :: acc) rest out

/-- Python `str.split(sep)` for a non-empty separator: all parts, empty
parts included. -/
def pySplit (s sep : String) : List String :=
  ((splitAux sep.toList (s.toList.length + 1) [] s.toList []).reverse).map String.mk

/-- Python substring containment `sub in s` (for a non-empty `sub`):
`str.split` produces at least two parts exactly when the separator
occurs. -/
def pyContains (s sub : String) : Bool :=
  (pySplit s sub).length ≥ 2

/-- Python `str.lower()` (ASCII). -/
def pyLower (s : String) : String := String.mk (s.toList.map Char.toLower)

/-- Python `str.startswith(p)`. -/
def pyStartswith (s p : String) : Bool := p.toList.isPrefixOf s.toList

/-! ### `json.loads`

A recursive-descent model of Python's strict `json.loads`: objects,
arrays, strings (with the standard escapes), integers, `true`/`false`/
`null`; the whole input must be consumed up to trailing JSON whitespace,
otherwise the parse fails (models `json.JSONDecodeError`).  Floating-point
literals are not modelled (the parse fails on them); no theorem below
depends on a float input. -/

/-- JSON inter-token whitespace. -/
def jsonSkipWs : List Char → List Char
  | c :: rest =>
    if c = ' ' || c = '\t' || c = '\n' || c = '\r' then jsonSkipWs rest else c :: rest
  | [] => []

/-- Value of one hex digit. -/
def hexVal (c : Char) : Option Nat :=
  if '0' ≤ c ∧ c ≤ '9' then some (c.toNat - 48)
  else if 'a' ≤ c ∧ c ≤ 'f' then some (c.toNat - 87)
  else if 'A' ≤ c ∧ c ≤ 'F' then some (c.toNat - 55)
  else none

/-- Body of a JSON string after the opening quote: returns the decoded
string and the remaining characters after the closing quote.  Unescaped
control characters are rejected, as in strict `json.loads`. -/
def parseStrBody (acc : List Char) : List Char → Option (String × List Char)
  | [] => none
  | '"' :: r => some (String.mk acc.reverse, r)
  | '\\' :: '"' :: r => parseStrBody ('"' :: acc) r
  | '\\' :: '\\' :: r => parseStrBody ('\\' :: acc) r
  | '\\' :: '/' :: r => parseStrBody ('/' :: acc) r
  | '\\' :: 'b' :: r => parseStrBody (Char.ofNat 8 :: acc) r
  | '\\' :: 'f' :: r => parseStrBody (Char.ofNat 12 :: acc) r
  | '\\' :: 'n' :: r => parseStrBody ('\n' :: acc) r
  | '\\' :: 'r' :: r => parseStrBody ('\r' :: acc) r
  | '\\' :: 't' :: r => parseStrBody ('\t' :: acc) r
  | '\\' :: 'u' :: a :: b :: c :: d :: r =>
    match hexVal a, hexVal b, hexVal c, hexVal d with
    | some ha, some hb, some hc, some hd =>
      parseStrBody (Char.ofNat (((ha * 16 + hb) * 16 + hc) * 16 + hd) :: acc) r
    | _, _, _, _ => none
  | '\\' :: _ => none
  | c :: r => if c.toNat < 32 then none else parseStrBody (c :: acc) r

/-- Longest digit span at the front of the input. -/
def spanDigits : List Char → (List Char × List Char)
  | c :: rest =>
    if c.isDigit then
      let (ds, r) := spanDigits rest
      (c :: ds, r)
    else ([], c :: rest)
  | [] => ([], [])

/-- Digits to a natural number. -/
def digitsToNat (ds : List Char) : Nat :=
  ds.foldl (fun n c => n * 10 + (c.toNat - 48)) 0

/-- JSON integer literal (optionally negative, no leading zeros); a
following `.`, `e` or `E` (a float literal) makes the parse fail in this
model. -/
def parseNum (cs : List Char) : Option (PyVal × List Char) :=
  let (neg, cs') := match cs with
    | '-' :: r => (true, r)
    | r => (false, r)
  match spanDigits cs' with
  | ([], _) => none
  | (ds, r) =>
    if ds.length > 1 ∧ ds.headI = '0' then none
    else
      match r with
      | '.' :: _ => none
      | 'e' :: _ => none
      | 'E' :: _ => none
      | _ =>
        let n : Int := Int.ofNat (digitsToNat ds)
        some (PyVal.vInt (if neg then -n else n), r)

mutual

/-- One JSON value; `fuel` bounds the recursion depth and is always given
generously by `json_loads`. -/
def parseVal : Nat → List Char → Option (PyVal × List Char)
  | 0, _ => none
  | fuel + 1, cs =>
    match jsonSkipWs cs with
    | [] => none
    | 't' :: 'r' :: 'u' :: 'e' :: r => some (PyVal.vBool true, r)
    | 'f' :: 'a' :: 'l' :: 's' :: 'e' :: r => some (PyVal.vBool false, r)
    | 'n' :: 'u' :: 'l' :: 'l' :: r => some (PyVal.vNull, r)
    | '"' :: r => (parseStrBody [] r).map (fun p => (PyVal.vStr p.1, p.2))
    | '[' :: r =>
      match jsonSkipWs r with
      | ']' :: r2 => some (PyVal.vList [], r2)
      | r2 => parseArr fuel r2 []
    | '{' :: r =>
      match jsonSkipWs r with
      | '}' :: r2 => some (PyVal.vDict [], r2)
      | r2 => parseObj fuel r2 []
    | c :: r => if c = '-' || c.isDigit then parseNum (c :: r) else none

/-- Comma-separated array elements up to `]`. -/
def parseArr : Nat → List Char → List PyVal → Option (PyVal × List Char)
  | 0, _, _ => none
  | fuel + 1, cs, acc =>
    match parseVal fuel cs with
    | none => none
    | some (v, r) =>
      match jsonSkipWs r with
      | ',' :: r2 => parseArr fuel r2 (v :: acc)
      | ']' :: r2 => some (PyVal.vList (v :: acc).reverse, r2)
      | _ => none

/-- Comma-separated `"key": value` members up to a closing brace. -/
def parseObj : Nat → List Char → List (String × PyVal) → Option (PyVal × List Char)
  | 0, _, _ => none
  | fuel + 1, cs, acc =>
    match jsonSkipWs cs with
    | '"' :: r =>
      match parseStrBody [] r with
      | none => none
      | some (k, r2) =>
        match jsonSkipWs r2 with
        | ':' :: r3 =>
          match parseVal fuel r3 with
          | none => none
          | some (v, r4) =>
            match jsonSkipWs r4 with
            | ',' :: r5 => parseObj fuel r5 ((k, v) :: acc)
            | '}' :: r5 => some (PyVal.vDict ((k, v) :: acc).reverse, r5)
            | _ => none
        | _ => none
    | _ => none

end

/-- Python `json.loads`: parse one value and require that only JSON
whitespace remains. -/
def json_loads (s : String) : Option PyVal :=
  match parseVal (2 * s.length + 2) s.toList with
  | some (v, rest) => if (jsonSkipWs rest).isEmpty then some v else none
  | none => none

end Orbit

namespace Orbit

/-! ## SafetyGate — `src/src/utils/safety.py`

`is_safe_command` is `async` but performs no concurrent effects; its one
awaited collaborator (the prompt → LLM → string-parser chain) is modelled
by an `Except String String` argument: `.error e` models `chain.ainvoke`
raising with message `e`, `.ok t` models it returning text `t`.
The function's Python return value is a pair `(is_safe, reason)` where
`is_safe` is whatever value `data.get("safe", False)` produced, so the
first component is modelled as a `PyVal` (the literal branches return the
Python booleans `True`/`False`). -/

/-- `SAFE_PREFIXES` from `src/src/utils/safety.py`. -/
def SAFE_PREFIXES : List String :=
  ["ls", "pwd", "echo", "cat", "grep", "find",
   "git status", "git log", "git diff", "git show",
   "npm list", "pip list"]

/-- The characters matched by `DANGEROUS_CHARS_REGEX = re.compile(r"[;&|><`$]")`.
(The backtick is written by code point.) -/
def DANGEROUS_CHARS : List Char :=
  [';', '&', '|', '>', '<', Char.ofNat 96, '$']

/-- `DANGEROUS_CHARS_REGEX.search(s)` succeeds iff some character of `s`
is in the class. -/
def hasDangerousChar (s : String) : Bool :=
  s.toList.any (fun c => DANGEROUS_CHARS.contains c)

/-- The allowlist loop of `is_safe_command`: scan `SAFE_PREFIXES` in order
and accept when the command equals a prefix or extends it with a space.
(Prefixes that match `startswith` but fail the inner test just continue
the loop, as in the source.) -/
def whitelistHit (clean_cmd : String) : Bool :=
  SAFE_PREFIXES.any (fun p =>
    pyStartswith clean_cmd p && (clean_cmd = p || pyStartswith clean_cmd (p ++ " ")))

/-- The markdown clean-up applied to the LLM output before `json.loads`
(`src/src/utils/safety.py`, lines 52–56). -/
def stripMarkdownFences (result_text : String) : String :=
  let json_str := pyStrip result_text
  if pyContains json_str "```json" then
    pyStrip (((pySplit ((pySplit json_str "```json").getD 1 "") "```").getD 0 ""))
  else if pyContains json_str "```" then
    pyStrip (((pySplit ((pySplit json_str "```").getD 1 "") "```").getD 0 ""))
  else
    json_str

/-- `is_safe_command(command)` from `src/src/utils/safety.py`.

The result's first component is the Python value returned as `is_safe`
(the literal branches return the booleans `True`/`False`; the LLM branch
returns `data.get("safe", False)` unconverted); the second is the
`reason`.  When `json.loads` yields a non-dict, `data.get` raises
`AttributeError`, which the generic `except` turns into the corresponding
`"Safety check failed: ..."` reason. -/
def is_safe_command (command : String) (llm : Except String String) :
    PyVal × PyVal :=
  if command = "" ∨ pyStrip command = "" then
    (PyVal.vBool false, PyVal.vStr "Empty command")
  else
    let clean_cmd := pyStrip command
    if !hasDangerousChar clean_cmd && whitelistHit clean_cmd then
      (PyVal.vBool true, PyVal.vStr "Whitelisted safe command")
    else
      match llm with
      | .error e => (PyVal.vBool false, PyVal.vStr ("Safety check failed: " ++ e))
      | .ok result_text =>
        let json_str := stripMarkdownFences result_text
        match json_loads json_str with
        | none =>
          (PyVal.vBool false,
           PyVal.vStr "Safety check failed: Invalid JSON response from LLM")
        | some (PyVal.vDict d) =>
          (PyVal.dictGetD d "safe" (PyVal.vBool false),
           PyVal.dictGetD d "reason" (PyVal.vStr "Unknown risk"))
        | some v =>
          (PyVal.vBool false,
           PyVal.vStr ("Safety check failed: '" ++ PyVal.typeName v ++
             "' object has no attribute 'get'"))

/-- A completion-service response text from which the SafetyGate cannot
extract a `safe` field: after the markdown clean-up, `json.loads` fails,
or yields a non-dict, or yields a dict with no `safe` key. -/
def classificationMalformed (t : String) : Bool :=
  match json_loads (stripMarkdownFences t) with
  | none => true
  | some (PyVal.vDict d) => (PyVal.dictFind d "safe").isNone
  | some _ => true

/-- Every safe prefix is a non-empty string. -/
theorem SAFE_PREFIXES_ne_empty : ∀ p ∈ SAFE_PREFIXES, p ≠ "" := by decide

/-- A string with a non-empty prefix-list witness is non-empty. -/
theorem ne_empty_of_listPrefix {s p : String} (hp : p ≠ "")
    (h : p.toList.isPrefixOf s.toList = true) : s ≠ "" := by
  intro hs
  subst hs
  have h2 := List.isPrefixOf_iff_prefix.mp h
  have h3 : p.toList = [] := List.prefix_nil.mp (by simpa using h2)
  exact hp (String.ext h3)

/-- Appending a space yields a non-empty string. -/
theorem append_space_ne_empty (p : String) : p ++ " " ≠ "" := by
  intro h
  have h2 := congrArg String.length h
  rw [String.length_append] at h2
  have h3 : (" " : String).length = 1 := rfl
  have h4 : ("" : String).length = 0 := rfl
  omega

/-- A string is a list-prefix of itself. -/
theorem pyStartswith_self (s : String) : pyStartswith s s = true :=
  List.isPrefixOf_iff_prefix.mpr (List.prefix_refl _)

/-- `startswith (p ++ " ")` implies `startswith p`. -/
theorem pyStartswith_of_append {s p q : String}
    (h : pyStartswith s (p ++ q) = true) : pyStartswith s p = true := by
  apply List.isPrefixOf_iff_prefix.mpr
  have h2 := List.isPrefixOf_iff_prefix.mp h
  have h3 : (p ++ q).toList = p.toList ++ q.toList := String.data_append p q
  rw [h3] at h2
  exact (List.prefix_append p.toList q.toList).trans h2

/-- C8: a stripped command with no dangerous character that equals a safe
prefix, or extends one with a space, is accepted by the allowlist
fast-path: `is_safe_command` returns `(True, "Whitelisted safe command")`
for every behaviour of the completion service (so the service is never
consulted). -/
theorem is_safe_command_whitelist (command : String) (llm : Except String String)
    (hnd : hasDangerousChar (pyStrip command) = false)
    (hp : ∃ p ∈ SAFE_PREFIXES,
      pyStrip command = p ∨ pyStartswith (pyStrip command) (p ++ " ") = true) :
    is_safe_command command llm =
      (PyVal.vBool true, PyVal.vStr "Whitelisted safe command") := by
  obtain ⟨p, hmem, hcase⟩ := hp
  have hpne : p ≠ "" := SAFE_PREFIXES_ne_empty p hmem
  have hclean_ne : pyStrip command ≠ "" := by
    rcases hcase with h | h
    · rw [h]; exact hpne
    · exact ne_empty_of_listPrefix (append_space_ne_empty p) h
  have hwh : whitelistHit (pyStrip command) = true := by
    apply List.any_eq_true.mpr
    refine ⟨p, hmem, ?_⟩
    rcases hcase with h | h
    · rw [h]
      simp [pyStartswith_self]
    · have hsw : pyStartswith (pyStrip command) p = true := pyStartswith_of_append h
      simp [hsw, h]
  have h1 : ¬(command = "" ∨ pyStrip command = "") := by
    push_neg
    refine ⟨?_, hclean_ne⟩
    intro h
    subst h
    exact hclean_ne rfl
  simp [is_safe_command, h1, hnd, hwh]

/-- Witness for C8 at `"ls -la"` (the spec's own example). -/
theorem is_safe_command_whitelist_witness :
    is_safe_command "ls -la" (.error "completion service unavailable") =
      (PyVal.vBool true, PyVal.vStr "Whitelisted safe command") :=
  is_safe_command_whitelist _ _ (by decide) ⟨"ls", by decide, Or.inr (by decide)⟩

/-- C10: an empty or all-whitespace command is rejected with
`(False, "Empty command")` for every behaviour of the completion service,
so neither the allowlist nor the service can influence the result. -/
theorem is_safe_command_empty (command : String) (llm : Except String String)
    (h : pyStrip command = "") :
    is_safe_command command llm = (PyVal.vBool false, PyVal.vStr "Empty command") := by
  simp [is_safe_command, h]

/-- Witness for C10 at a whitespace-only command, with a completion
service that would have said SAFE. -/
theorem is_safe_command_empty_witness :
    is_safe_command "   " (.ok "\x7b\"safe\": true\x7d") =
      (PyVal.vBool false, PyVal.vStr "Empty command") :=
  is_safe_command_empty _ _ (by decide)

/-- C2: once the completion-service fallback is reached, a service
exception, unparseable text, text parsing to a non-dict, or a dict with
no `safe` key all yield `is_safe = False` — the fallback is fail-closed. -/
theorem is_safe_command_fallback_fail_closed (command : String)
    (llm : Except String String)
    (hne : pyStrip command ≠ "")
    (hfb : hasDangerousChar (pyStrip command) = true ∨
      whitelistHit (pyStrip command) = false)
    (hllm : ∀ t, llm = Except.ok t → classificationMalformed t = true) :
    (is_safe_command command llm).1 = PyVal.vBool false := by
  have h1 : ¬(command = "" ∨ pyStrip command = "") := by
    push_neg
    refine ⟨?_, hne⟩
    intro h
    subst h
    exact hne rfl
  have h2 : (!hasDangerousChar (pyStrip command) && whitelistHit (pyStrip command))
      = false := by
    rcases hfb with h | h <;> simp [h]
  rw [is_safe_command.eq_def, if_neg h1]
  simp only [h2, Bool.false_eq_true, if_false]
  cases llm with
  | error e => rfl
  | ok t =>
    have hm := hllm t rfl
    unfold classificationMalformed at hm
    cases hj : json_loads (stripMarkdownFences t) with
    | none => simp [hj]
    | some v =>
      rw [hj] at hm
      cases v with
      | vDict d =>
        simp only [Option.isNone_iff_eq_none] at hm
        simp [hj, PyVal.dictGetD, hm]
      | vNull => simp [hj]
      | vBool b => simp [hj]
      | vInt n => simp [hj]
      | vStr s => simp [hj]
      | vList l => simp [hj]

/-- Witness for C2: `"rm -rf /"` reaches the fallback and the service
returns prose instead of JSON — the command is classified UNSAFE. -/
theorem is_safe_command_fallback_witness :
    (is_safe_command "rm -rf /" (.ok "I think this is dangerous")).1 =
      PyVal.vBool false :=
  is_safe_command_fallback_fail_closed _ _ (by decide) (Or.inr (by decide))
    (fun t ht => by injection ht with h; rw [← h]; decide)

/-! ## Router — `src/src/agent/edges.py`

The route functions read only the `intent`, `plan` and
`evaluation_outcome` keys of the state dict.  `RouterState` models
exactly those keys: `none` is a missing key, and `intent` /
`evaluation_outcome` may hold an arbitrary value (the TypedDict is not
enforced at runtime).  The `plan` key, when present, is modelled as a
dict (every producer in the repository stores `Plan.to_dict()` there, a
dict; `route_after_planner` calls `.get` on it). -/

/-- Python `==` between an arbitrary value and a string literal. -/
def PyVal.eqStr (v : PyVal) (s : String) : Bool :=
  match v with
  | PyVal.vStr t => t = s
  | _ => false

/-- The slice of `AgentState` read by the route functions. -/
structure RouterState where
  intent : Option PyVal := none
  plan : Option (List (String × PyVal)) := none
  evaluation_outcome : Option PyVal := none

/-- `route_after_classifier` (`src/src/agent/edges.py`, lines 11–33). -/
def route_after_classifier (state : RouterState) : String :=
  let intent := state.intent.getD (PyVal.vStr "unknown")
  if intent.eqStr "question" then "responder"
  else if intent.eqStr "workflow" then "planner"
  else if intent.eqStr "command" then "command_generator"
  else if intent.eqStr "confirmation" then "responder"
  else "responder"

/-- `route_after_planner` (`src/src/agent/edges.py`, lines 36–49). -/
def route_after_planner (state : RouterState) : String :=
  let plan := state.plan.getD []
  let steps := PyVal.dictGetD plan "steps" (PyVal.vList [])
  if steps.truthy then "executor" else "responder"

/-- `route_after_executor` (`src/src/agent/edges.py`, lines 52–58). -/
def route_after_executor (_state : RouterState) : String :=
  "evaluator"

/-- `route_after_evaluator` (`src/src/agent/edges.py`, lines 61–83). -/
def route_after_evaluator (state : RouterState) : String :=
  let outcome := state.evaluation_outcome.getD (PyVal.vStr "unknown")
  if outcome.eqStr "continue_execution" then "executor"
  else if outcome.eqStr "needs_replanning" then "planner"
  else if outcome.eqStr "goal_achieved" || outcome.eqStr "fatal_error" ||
    outcome.eqStr "incomplete" then "responder"
  else "responder"

/-- The `intent` key holds one of the five documented intent strings. -/
def intentRecognized (v : Option PyVal) : Bool :=
  match v with
  | some (PyVal.vStr s) =>
    s = "question" || s = "workflow" || s = "command" || s = "confirmation" ||
      s = "unknown"
  | _ => false

/-- The `evaluation_outcome` key holds one of the five documented
outcome strings. -/
def outcomeRecognized (v : Option PyVal) : Bool :=
  match v with
  | some (PyVal.vStr s) =>
    s = "continue_execution" || s = "needs_replanning" || s = "goal_achieved" ||
      s = "fatal_error" || s = "incomplete"
  | _ => false

/-- C3: the Router is total — on every state value (any value, or a
missing key, in `intent` / `evaluation_outcome`) each route function
returns one of its declared next stages, and any unrecognized
`intent` / `evaluation_outcome` value routes to `"responder"`. -/
theorem router_total (st : RouterState) :
    (route_after_classifier st = "command_generator" ∨
      route_after_classifier st = "planner" ∨
      route_after_classifier st = "responder") ∧
    (route_after_planner st = "executor" ∨ route_after_planner st = "responder") ∧
    route_after_executor st = "evaluator" ∧
    (route_after_evaluator st = "executor" ∨ route_after_evaluator st = "planner" ∨
      route_after_evaluator st = "responder") ∧
    (intentRecognized st.intent = false → route_after_classifier st = "responder") ∧
    (outcomeRecognized st.evaluation_outcome = false →
      route_after_evaluator st = "responder") := by
  obtain ⟨i, p, e⟩ := st
  refine ⟨?_, ?_, rfl, ?_, ?_, ?_⟩
  · unfold route_after_classifier
    dsimp only
    split_ifs <;> simp
  · unfold route_after_planner
    dsimp only
    split_ifs <;> simp
  · unfold route_after_evaluator
    dsimp only
    split_ifs <;> simp
  · intro h
    unfold route_after_classifier
    cases i with
    | none => rfl
    | some v =>
      cases v with
      | vStr s =>
        simp only [intentRecognized, Bool.or_eq_false_iff,
          decide_eq_false_iff_not] at h
        simp [PyVal.eqStr, h.1.1.1.1, h.1.1.1.2, h.1.1.2, h.1.2]
      | vNull => rfl
      | vBool b => rfl
      | vInt n => rfl
      | vList l => rfl
      | vDict d => rfl
  · intro h
    unfold route_after_evaluator
    cases e with
    | none => rfl
    | some v =>
      cases v with
      | vStr s =>
        simp only [outcomeRecognized, Bool.or_eq_false_iff,
          decide_eq_false_iff_not] at h
        simp [PyVal.eqStr, h.1.1.1.1, h.1.1.1.2, h.1.1.2, h.1.2, h.2]
      | vNull => rfl
      | vBool b => rfl
      | vInt n => rfl
      | vList l => rfl
      | vDict d => rfl

/-- Witness for C3 at a state whose `intent` is an integer and whose
`evaluation_outcome` is an undocumented string: both route to
`"responder"`, and all four functions produce declared stages. -/
theorem router_total_witness :
    route_after_classifier ⟨some (PyVal.vInt 7), none, some (PyVal.vStr "bogus")⟩
        = "responder" ∧
      route_after_evaluator ⟨some (PyVal.vInt 7), none, some (PyVal.vStr "bogus")⟩
        = "responder" ∧
      route_after_executor ⟨some (PyVal.vInt 7), none, some (PyVal.vStr "bogus")⟩
        = "evaluator" :=
  ⟨(router_total _).2.2.2.2.1 (by decide),
   (router_total _).2.2.2.2.2 (by decide),
   (router_total _).2.2.1⟩

/-! ## Evaluator — `src/src/agent/nodes/evaluator.py`

`EvaluatorNode.evaluate` reads `plan` and `current_step` from the state
and dispatches on the accumulated execution-result dicts.  The execution
results are the dicts produced by the Executor; their relevant keys,
when present, hold the types the Executor writes (`status` and `error`
are strings).  The one LLM round-trip per invocation is the
`Except String String` argument.  The returned dict is modelled as a
structure of its possible keys (`confidence`, a float, is not modelled;
no claim concerns it). -/

/-- The five values of `EvaluationOutcome`. -/
inductive EvaluationOutcome where
  | goal_achieved
  | continue_execution
  | needs_replanning
  | fatal_error
  | incomplete
deriving Repr, DecidableEq, Inhabited

/-- One execution-result dict, as read by the Evaluator (`none` =
key absent). -/
structure ExecResult where
  step_number : Option Int := none
  description : Option String := none
  status : Option String := none
  output : Option String := none
  error : Option String := none
  execution_time_ms : Option Int := none
  tool_name : Option String := none
deriving Repr, DecidableEq

/-- The `plan` dict as read by the Evaluator (`goal` and `steps` keys;
`none` = key absent). -/
structure EvalPlan where
  goal : Option String := none
  steps : List PyVal := []
deriving Repr

/-- The slice of `AgentState` read by `EvaluatorNode.evaluate`. -/
structure EvalState where
  plan : Option EvalPlan := none
  current_step : Option Int := none
deriving Repr

/-- The dict returned by one `evaluate` call. -/
structure EvalResult where
  outcome : EvaluationOutcome
  next_action : String
  reasoning : PyVal
  current_step : Option Int := none
  suggested_fix : Option PyVal := none
  error_message : Option String := none
  gaps : Option PyVal := none
deriving Repr

/-- Python `str.find(c)` as an optional index. -/
def findCharIdx (c : Char) : List Char → Option Nat
  | [] => none
  | x :: r => if x = c then some 0 else (findCharIdx c r).map (· + 1)

/-- Python `str.rfind(c)` as an optional index. -/
def rfindCharIdx (c : Char) (cs : List Char) : Option Nat :=
  (findCharIdx c cs.reverse).map (fun i => cs.length - 1 - i)

/-- The first stage of the response parsers: slice the text from the
first `{` to the last `}` and try `json.loads` on it. -/
def braceSliceParse (resp : List Char) : Option PyVal :=
  match findCharIdx '{' resp, rfindCharIdx '}' resp with
  | some i, some j => json_loads (String.mk ((resp.drop i).take (j + 1 - i)))
  | _, _ => none

/-- `EvaluatorNode._parse_json_response` (`evaluator.py`, lines 355–406):
brace-slice parse, else scan the lines (skipping any line containing a
code fence and any stripped line that is empty or starts with `-` or
`*`) and return the first line that parses to a JSON dict; else `{}`. -/
def parse_json_response (response : String) : PyVal :=
  let resp := pyStrip response
  match braceSliceParse resp.toList with
  | some v => v
  | none =>
    let lines := pySplit resp "\n"
    let objs := lines.filterMap (fun line0 =>
      if pyContains line0 "```json" || pyContains line0 "```" then none
      else
        let line := pyStrip line0
        if line ≠ "" && !pyStartswith line "-" && !pyStartswith line "*" then
          match json_loads line with
          | some (PyVal.vDict d) => some (PyVal.vDict d)
          | _ => none
        else none)
    match objs with
    | x :: _ => x
    | [] => PyVal.vDict []

/-- View the analysis value as a dict (`parse_json_response` always
returns one: the brace slice starts with a brace, the line scan keeps
only dicts, and the fallback is the empty dict). -/
def PyVal.asDict : PyVal → List (String × PyVal)
  | PyVal.vDict d => d
  | _ => []

/-- `EvaluatorNode._evaluate_error` (`evaluator.py`, lines 95–170):
classify the failure via the LLM; a truthy `is_recoverable` means
`needs_replanning`, anything else `fatal_error`, and an LLM exception
falls back to `needs_replanning`. -/
def evaluate_error (latest : Option ExecResult) (llm : Except String String) :
    EvalResult :=
  let error_message := match latest with
    | some r => r.error.getD "Unknown error"
    | none => "Unknown error"
  match llm with
  | .error e =>
    { outcome := .needs_replanning, next_action := "replan",
      reasoning := PyVal.vStr ("Error occurred, unable to analyze: " ++ e),
      error_message := some error_message }
  | .ok text =>
    let analysis := (parse_json_response text).asDict
    if (PyVal.dictGetD analysis "is_recoverable" PyVal.vNull).truthy then
      { outcome := .needs_replanning, next_action := "replan",
        reasoning :=
          PyVal.dictGetD analysis "reasoning"
            (PyVal.vStr "Error occurred, replanning needed"),
        suggested_fix := some (PyVal.dictGetD analysis "suggested_fix" PyVal.vNull),
        error_message := some error_message }
    else
      { outcome := .fatal_error, next_action := "abort",
        reasoning :=
          PyVal.dictGetD analysis "reasoning" (PyVal.vStr "Fatal error encountered"),
        error_message := some error_message }

/-- `EvaluatorNode._evaluate_completion` (`evaluator.py`, lines 172–259):
ask the LLM whether the goal was achieved; on an LLM exception, default
to `goal_achieved` when no result failed, `incomplete` otherwise. -/
def evaluate_completion (results : List ExecResult) (_goal : String)
    (llm : Except String String) : EvalResult :=
  match llm with
  | .error _ =>
    if !(results.any (fun r => r.status == some "failed")) then
      { outcome := .goal_achieved, next_action := "respond",
        reasoning := PyVal.vStr "All steps completed without errors" }
    else
      { outcome := .incomplete, next_action := "replan",
        reasoning := PyVal.vStr "Unable to evaluate completion, but errors present",
        gaps := some (PyVal.vList [PyVal.vStr "Analysis failed"]) }
  | .ok text =>
    let analysis := (parse_json_response text).asDict
    if (PyVal.dictGetD analysis "goal_achieved" (PyVal.vBool false)).truthy then
      { outcome := .goal_achieved, next_action := "respond",
        reasoning := PyVal.dictGetD analysis "reasoning" (PyVal.vStr "Goal achieved") }
    else
      { outcome := .incomplete, next_action := "replan",
        reasoning :=
          PyVal.dictGetD analysis "reasoning" (PyVal.vStr "Goal not fully achieved"),
        gaps := some (PyVal.dictGetD analysis "gaps" (PyVal.vList [])) }

/-- `EvaluatorNode._evaluate_skipped_step` (`evaluator.py`, lines
310–353): a skip reason mentioning "confirmation" or "permission"
(case-insensitively) escalates to `needs_replanning` with the step
cursor unchanged; any other skip continues with the cursor advanced. -/
def evaluate_skipped_step (skipped_result : ExecResult) (current_step : Int) :
    EvalResult :=
  let error_message := skipped_result.error.getD "Step skipped"
  if pyContains (pyLower error_message) "confirmation" then
    { outcome := .needs_replanning, next_action := "replan",
      reasoning :=
        PyVal.vStr "Step requires user confirmation, should have been handled earlier",
      current_step := some current_step }
  else if pyContains (pyLower error_message) "permission" then
    { outcome := .needs_replanning, next_action := "replan",
      reasoning := PyVal.vStr "Permission denied, need alternative approach",
      current_step := some current_step }
  else
    { outcome := .continue_execution, next_action := "continue",
      reasoning :=
        PyVal.vStr ("Step " ++ toString current_step ++ " skipped but continuing"),
      current_step := some (current_step + 1) }

/-- `EvaluatorNode._evaluate_progress` (`evaluator.py`, lines 261–308). -/
def evaluate_progress (results : List ExecResult) (current_step : Int) :
    EvalResult :=
  match results.getLast? with
  | none =>
    { outcome := .continue_execution, next_action := "continue",
      reasoning := PyVal.vStr "No execution results, continuing" }
  | some latest =>
    if latest.status == some "completed" then
      { outcome := .continue_execution, next_action := "continue",
        reasoning :=
          PyVal.vStr ("Step " ++ toString current_step ++ " completed successfully"),
        current_step := some (current_step + 1) }
    else if latest.status == some "skipped" then
      evaluate_skipped_step latest current_step
    else
      { outcome := .continue_execution, next_action := "continue",
        reasoning :=
          PyVal.vStr ("Step " ++ toString current_step ++ " status: " ++
            (latest.status.getD "None") ++ ", continuing"),
        current_step := some (current_step + 1) }

/-- `EvaluatorNode.evaluate` (`evaluator.py`, lines 53–93): dispatch on
failed results first, then on all-steps-attempted, else on progress. -/
def evaluate (state : EvalState) (execution_results : List ExecResult)
    (llm : Except String String) : EvalResult :=
  let plan := state.plan.getD {}
  let goal := plan.goal.getD "Unknown goal"
  let total_steps : Int := plan.steps.length
  let current_step := state.current_step.getD 0
  let all_steps_completed := current_step ≥ total_steps
  let has_errors := execution_results.any (fun r => r.status == some "failed")
  let latest_result := execution_results.getLast?
  if has_errors then
    evaluate_error latest_result llm
  else if all_steps_completed then
    evaluate_completion execution_results goal llm
  else
    evaluate_progress execution_results current_step

/-- C4: whenever some execution result has status `"failed"`, `evaluate`
returns `needs_replanning` or `fatal_error` — never `continue_execution`
or `goal_achieved` — for every behaviour of the completion service. -/
theorem evaluate_failed_never_continue (state : EvalState)
    (execution_results : List ExecResult) (llm : Except String String)
    (h : execution_results.any (fun r => r.status == some "failed") = true) :
    (evaluate state execution_results llm).outcome =
        EvaluationOutcome.needs_replanning ∨
      (evaluate state execution_results llm).outcome =
        EvaluationOutcome.fatal_error := by
  unfold evaluate
  dsimp only
  rw [if_pos h]
  unfold evaluate_error
  cases llm with
  | error e => left; rfl
  | ok t =>
    dsimp only
    split_ifs with h2
    · left; rfl
    · right; rfl

/-- Witness for C4: one failed step, with a completion service claiming
all is well — the outcome is still replanning or a fatal error. -/
theorem evaluate_failed_never_continue_witness :
    (evaluate
        { plan := some { goal := some "deploy", steps := [PyVal.vStr "s1"] },
          current_step := some 0 }
        [{ step_number := some 1, status := some "failed", error := some "boom" }]
        (.ok "everything is fine")).outcome =
        EvaluationOutcome.needs_replanning ∨
      (evaluate
        { plan := some { goal := some "deploy", steps := [PyVal.vStr "s1"] },
          current_step := some 0 }
        [{ step_number := some 1, status := some "failed", error := some "boom" }]
        (.ok "everything is fine")).outcome = EvaluationOutcome.fatal_error :=
  evaluate_failed_never_continue _ _ _ (by decide)

/-- C7: with no failed result, steps remaining, and the latest result
skipped — a skip reason mentioning "confirmation" or "permission"
(case-insensitive) yields `needs_replanning` with the step cursor
unchanged, and any other skip reason yields `continue_execution` with
the cursor advanced by one. -/
theorem evaluate_skipped_policy (state : EvalState) (results : List ExecResult)
    (llm : Except String String) (r : ExecResult)
    (hnf : results.any (fun x => x.status == some "failed") = false)
    (hrem : state.current_step.getD 0 < ((state.plan.getD {}).steps.length : Int))
    (hlast : results.getLast? = some r)
    (hskip : r.status = some "skipped") :
    ((pyContains (pyLower (r.error.getD "Step skipped")) "confirmation" ||
        pyContains (pyLower (r.error.getD "Step skipped")) "permission") = true →
      (evaluate state results llm).outcome = EvaluationOutcome.needs_replanning ∧
      (evaluate state results llm).current_step =
        some (state.current_step.getD 0)) ∧
    ((pyContains (pyLower (r.error.getD "Step skipped")) "confirmation" ||
        pyContains (pyLower (r.error.getD "Step skipped")) "permission") = false →
      (evaluate state results llm).outcome = EvaluationOutcome.continue_execution ∧
      (evaluate state results llm).current_step =
        some (state.current_step.getD 0 + 1)) := by
  have hred : evaluate state results llm =
      evaluate_skipped_step r (state.current_step.getD 0) := by
    unfold evaluate
    dsimp only
    rw [if_neg (by simp [hnf]), if_neg (not_le.mpr hrem)]
    unfold evaluate_progress
    rw [hlast]
    simp [hskip]
  constructor <;> intro hc <;> rw [hred] <;> unfold evaluate_skipped_step
  · by_cases h1 : pyContains (pyLower (r.error.getD "Step skipped")) "confirmation" = true
    · simp [h1]
    · have h2 : pyContains (pyLower (r.error.getD "Step skipped")) "permission" = true := by
        rcases Bool.or_eq_true_iff.mp hc with h | h
        · exact absurd h h1
        · exact h
      simp [eq_false_of_ne_true h1, h2]
  · have h12 := Bool.or_eq_false_iff.mp hc
    simp [h12.1, h12.2]

/-- Witness for C7 at a confirmation-skip: outcome `needs_replanning`,
cursor unchanged at 1. -/
theorem evaluate_skipped_policy_witness :
    (evaluate
        { plan := some { goal := some "g", steps := [PyVal.vStr "a", PyVal.vStr "b"] },
          current_step := some 1 }
        [{ step_number := some 1, status := some "skipped",
           error := some "This step requires user confirmation" }]
        (.error "service down")).outcome = EvaluationOutcome.needs_replanning ∧
      (evaluate
        { plan := some { goal := some "g", steps := [PyVal.vStr "a", PyVal.vStr "b"] },
          current_step := some 1 }
        [{ step_number := some 1, status := some "skipped",
           error := some "This step requires user confirmation" }]
        (.error "service down")).current_step = some 1 :=
  (evaluate_skipped_policy
    { plan := some { goal := some "g", steps := [PyVal.vStr "a", PyVal.vStr "b"] },
      current_step := some 1 }
    [{ step_number := some 1, status := some "skipped",
       error := some "This step requires user confirmation" }]
    (.error "service down")
    { step_number := some 1, status := some "skipped",
      error := some "This step requires user confirmation" }
    (by decide) (by decide) (by decide) (by decide)).1 (by decide)

/-- C6 counterexample: all steps attempted, no result failed, and the
completion service returns unparseable prose.  The claim's default for a
failed classification would be `goal_achieved` (no FAILED results), but
the code only applies that default when the service raises; unparseable
text produces the empty analysis `{}`, whose falsy `goal_achieved` key
selects `incomplete`. -/
theorem evaluator_default_counterexample :
    (evaluate
        { plan := some { goal := some "list files", steps := [PyVal.vStr "step1"] },
          current_step := some 1 }
        [{ step_number := some 1, status := some "completed", output := some "ok" }]
        (.ok "The goal looks achieved to me")).outcome =
        EvaluationOutcome.incomplete ∧
      ([({ step_number := some 1, status := some "completed", output := some "ok" } :
          ExecResult)] : List ExecResult).any (fun r => r.status == some "failed")
        = false := by
  constructor
  · rfl
  · decide

/-- C6 as amended: the defaults apply only when the classification call
*raises*: then the error path yields `needs_replanning`, and the
all-steps-attempted path yields `goal_achieved` iff no result failed
(`incomplete` otherwise).  When the call instead *returns* text from
which no analysis can be extracted (falsy `is_recoverable` /
`goal_achieved`), the normal branches run: `fatal_error` on the error
path and `incomplete` on the completion path. -/
theorem evaluator_classification_defaults :
    (∀ (st : EvalState) (results : List ExecResult) (e : String),
      results.any (fun r => r.status == some "failed") = true →
      (evaluate st results (.error e)).outcome =
        EvaluationOutcome.needs_replanning) ∧
    (∀ (results : List ExecResult) (goal e : String),
      (evaluate_completion results goal (.error e)).outcome =
        (if results.any (fun r => r.status == some "failed") then
          EvaluationOutcome.incomplete else EvaluationOutcome.goal_achieved)) ∧
    (∀ (st : EvalState) (results : List ExecResult) (t : String),
      results.any (fun r => r.status == some "failed") = true →
      (PyVal.dictGetD (parse_json_response t).asDict "is_recoverable"
        PyVal.vNull).truthy = false →
      (evaluate st results (.ok t)).outcome = EvaluationOutcome.fatal_error) ∧
    (∀ (results : List ExecResult) (goal t : String),
      (PyVal.dictGetD (parse_json_response t).asDict "goal_achieved"
        (PyVal.vBool false)).truthy = false →
      (evaluate_completion results goal (.ok t)).outcome =
        EvaluationOutcome.incomplete) := by
  refine ⟨?_, ?_, ?_, ?_⟩
  · intro st results e h
    unfold evaluate
    dsimp only
    rw [if_pos h]
    rfl
  · intro results goal e
    unfold evaluate_completion
    by_cases h : results.any (fun r => r.status == some "failed") = true
    · simp [h]
    · simp [eq_false_of_ne_true h]
  · intro st results t h h2
    unfold evaluate
    dsimp only
    rw [if_pos h]
    unfold evaluate_error
    dsimp only
    rw [if_neg (by simp [h2])]
  · intro results goal t h
    unfold evaluate_completion
    dsimp only
    rw [if_neg (by simp [h])]

/-- Witness for the amended C6: a raising service on the error path
defaults to replanning; an unparseable answer on the error path falls
through to `fatal_error`. -/
theorem evaluator_classification_defaults_witness :
    (evaluate
        { plan := some { goal := some "g", steps := [PyVal.vStr "a"] },
          current_step := some 0 }
        [{ step_number := some 1, status := some "failed", error := some "oops" }]
        (.error "timeout")).outcome = EvaluationOutcome.needs_replanning ∧
    (evaluate
        { plan := some { goal := some "g", steps := [PyVal.vStr "a"] },
          current_step := some 0 }
        [{ step_number := some 1, status := some "failed", error := some "oops" }]
        (.ok "cannot tell")).outcome = EvaluationOutcome.fatal_error :=
  ⟨evaluator_classification_defaults.1 _ _ _ (by decide),
   evaluator_classification_defaults.2.2.1 _ _ _ (by decide) (by decide)⟩

/-! ## Planner — `src/src/agent/nodes/planner.py`

`_parse_llm_plan_response` is pure in the response text;
`_create_multi_step_plan` is embedded from the point where the
completion-service response is in hand (the prompt construction before
it has no bearing on the parse contract).  Python exceptions inside the
`try` block are modelled with `Except Unit`; the enclosing handler turns
them into the fallback plan. -/

/-- Python iteration over a value, as used by `list.extend(x)` and
`enumerate(x)`: lists yield their items, strings their characters (as
1-character strings), dicts their keys; other values raise `TypeError`. -/
def pyIterate : PyVal → Except Unit (List PyVal)
  | PyVal.vList l => .ok l
  | PyVal.vStr s => .ok (s.toList.map (fun c => PyVal.vStr (String.mk [c])))
  | PyVal.vDict d => .ok (d.map (fun p => PyVal.vStr p.1))
  | _ => .error ()

/-- `PlanStep.__init__` stores the given fields; `arguments` falls back
to `{}` when falsy (`arguments or {}`). -/
structure PlanStepL where
  step_number : Int
  description : PyVal
  tool_name : PyVal := PyVal.vNull
  arguments : PyVal := PyVal.vDict []
  expected_outcome : PyVal := PyVal.vNull
deriving Repr

/-- `Plan.__init__`: steps, goal, advisory `estimated_steps`, and the
confirmation flag. -/
structure PlanL where
  steps : List PlanStepL
  goal : PyVal
  estimated_steps : Option PyVal := none
  requires_confirmation : PyVal := PyVal.vBool false
deriving Repr

/-- The fence-scanning fallback of `_parse_llm_plan_response`
(`planner.py`, lines 428–449): keep every stripped non-fence line that
does not start with `-` or `*` and parses to a JSON dict. -/
def plannerScanLines (resp : String) : List PyVal :=
  (pySplit resp "\n").filterMap (fun line0 =>
    if pyContains line0 "```json" || pyContains line0 "```" then none
    else
      let line := pyStrip line0
      if pyStartswith line "-" || pyStartswith line "*" || line = "```" then none
      else
        match json_loads line with
        | some (PyVal.vDict d) => some (PyVal.vDict d)
        | _ => none)

/-- The merge loop of `_parse_llm_plan_response` (`planner.py`, lines
451–463): fold the scanned dicts, extending `steps` from every dict that
has a `steps` key (a non-iterable `steps` value raises `TypeError`) and
remembering the last `goal` / `requires_confirmation` seen in such a
dict. -/
def plannerMergeObjs (objs : List PyVal) :
    Except Unit (List PyVal × Option PyVal × PyVal) :=
  objs.foldlM (fun (acc : List PyVal × Option PyVal × PyVal) item =>
    match item with
    | PyVal.vDict d =>
      if PyVal.dictHas d "steps" then do
        let items ← pyIterate (PyVal.dictGetD d "steps" PyVal.vNull)
        let goal := match PyVal.dictFind d "goal" with
          | some g => some g
          | none => acc.2.1
        let rc := (PyVal.dictFind d "requires_confirmation").getD acc.2.2
        return (acc.1 ++ items, goal, rc)
      else
        return acc
    | _ => return acc) ([], none, PyVal.vBool false)

/-- `PlannerNode._parse_llm_plan_response` (`planner.py`, lines 400–512):
brace-slice parse of the whole response (returned raw on success), else
the fence scan and merge; the merged result is normalized to a dict with
`steps`, `goal` (`goal or "Process the request"`) and
`requires_confirmation` keys.  The `isinstance(item, list) / str`
branches of the source are dead (only dicts are collected) and add
nothing here. -/
def parse_llm_plan_response (response : String) : Except Unit PyVal := do
  let resp := pyStrip response
  match braceSliceParse resp.toList with
  | some v => return v
  | none =>
    let objs := plannerScanLines resp
    let (steps, goal, rc) ← plannerMergeObjs objs
    let goalVal := match goal with
      | some g => if g.truthy then g else PyVal.vStr "Process the request"
      | none => PyVal.vStr "Process the request"
    return PyVal.vDict
      [("steps", PyVal.vList steps), ("goal", goalVal),
       ("requires_confirmation", rc)]

/-- The step-construction loop shared by the plan builders
(`planner.py`, lines 343–351): each parsed step must be a dict with a
`description` key (`step_data["description"]` raises otherwise); the
other fields default via `.get`. -/
def buildPlanSteps (stepsData : List PyVal) : Except Unit (List PlanStepL) := do
  let mut out : List PlanStepL := []
  let mut i : Int := 1
  for sd in stepsData do
    match sd with
    | PyVal.vDict d =>
      match PyVal.dictFind d "description" with
      | some desc =>
        let args := PyVal.dictGetD d "arguments" PyVal.vNull
        out := out ++ [{
          step_number := i,
          description := desc,
          tool_name := PyVal.dictGetD d "tool_name" PyVal.vNull,
          arguments := if args.truthy then args else PyVal.vDict [],
          expected_outcome := PyVal.dictGetD d "expected_outcome" PyVal.vNull }]
        i := i + 1
      | none => throw ()
    | _ => throw ()
  return out

/-- `PlannerNode._create_multi_step_plan` from the completion response
on (`planner.py`, lines 337–379).  Any exception in the `try` block —
an unparseable `steps` entry, a step without `description`, or the
`step.get("tool_name")` `AttributeError` raised by the
confirmation check as soon as some step has a truthy `tool_name`
(`PlanStep` has no `.get`) — produces the fallback single-step plan. -/
def create_multi_step_plan (user_request : String) (response : String) : PlanL :=
  let attempt : Except Unit PlanL := do
    let plan_data ← parse_llm_plan_response response
    let pd := plan_data.asDict
    let stepsData ← pyIterate (PyVal.dictGetD pd "steps" (PyVal.vList []))
    let steps ← buildPlanSteps stepsData
    if steps.any (fun s => s.tool_name.truthy) then
      throw ()
    else
      return {
        steps := steps,
        goal := PyVal.dictGetD pd "goal" (PyVal.vStr user_request),
        estimated_steps :=
          some (PyVal.dictGetD pd "steps_count" (PyVal.vInt steps.length)),
        requires_confirmation := PyVal.vBool false }
  match attempt with
  | .ok plan => plan
  | .error _ =>
    { steps := [{
        step_number := 1,
        description := PyVal.vStr ("Analyze and respond to: " ++ user_request),
        tool_name := PyVal.vNull,
        arguments := PyVal.vDict [],
        expected_outcome := PyVal.vStr "Understand and provide information" }],
      goal := PyVal.vStr user_request,
      requires_confirmation := PyVal.vBool false }

/-- C1 (code evaluated at the failing input): a completion response with
no parseable JSON does NOT raise, but the Planner returns a plan with
ZERO steps (the spec and the claim say exactly one): the parse returns
`steps=[]` without an exception, so the single-step fallback never
runs.  The goal does come out non-empty (`"Process the request"`). -/
theorem planner_unparseable_zero_steps :
    (create_multi_step_plan "organize my downloads and write a report"
        "I cannot help with that.").steps.length = 0 ∧
      (create_multi_step_plan "organize my downloads and write a report"
        "I cannot help with that.").goal = PyVal.vStr "Process the request" := by
  constructor
  · rfl
  · rfl

/-! ## Executor — `src/src/agent/nodes/executor.py`

`ExecutorNode._execute_step` is embedded as a function of the step dict
and of the tool resolved from the registry.  The tool's behaviour when
invoked is a `ToolOutcome`; repository calls are recorded in an event
log (their payloads carry what the claims need).  The wall-clock
measurement is an external input (`elapsed`).  On the path where
`tool.execute` raises, the terminal `mark_failed` in `finally` runs and
the subsequent `result_data` construction raises `UnboundLocalError`
(`output` was never assigned), modelled as an `Except.error`. -/

/-- Behaviour of `await tool.execute(...)`: return a string, return a
`ToolError`, raise, or return something else (`str(result)` given). -/
inductive ToolOutcome where
  | retString (s : String)
  | retToolError (error_message : String)
  | raises (msg : String)
  | retOther (repr : String)
deriving Repr, DecidableEq

/-- A tool as resolved from the registry:
`is_safe_for_user(user_permission_level=1)` and the behaviour of its
`execute`. -/
structure ToolModel where
  is_safe_for_user : Bool
  outcome : ToolOutcome
deriving Repr, DecidableEq

/-- One `ToolCallRepository` call issued by `_execute_step`. -/
inductive RepoEvent where
  | create
  | mark_running
  | mark_completed
  | mark_failed
deriving Repr, DecidableEq

/-- The step dict as read by `_execute_step` (`.get` on each key). -/
structure StepData where
  step_number : Option Int := none
  description : Option String := none
  tool_name : Option String := none
  arguments : Option PyVal := none
  requires_confirmation : PyVal := PyVal.vNull
deriving Repr

/-- `ExecutorNode._execute_step` (`executor.py`, lines 95–228): the
returned result dict (or the propagated `UnboundLocalError`) together
with the ordered repository calls. -/
def execute_step (step : StepData) (tool : Option ToolModel) (elapsed : Int) :
    Except String ExecResult × List RepoEvent :=
  if step.requires_confirmation.truthy then
    (.ok { step_number := step.step_number, status := some "skipped",
           error := some "This step requires user confirmation" }, [])
  else
    match tool with
    | none =>
      (.ok { step_number := step.step_number, status := some "failed",
             error := some ("Tool '" ++ (step.tool_name.getD "None") ++
               "' not found in registry") }, [])
    | some t =>
      if !t.is_safe_for_user then
        (.ok { step_number := step.step_number, status := some "skipped",
               error := some ("Tool '" ++ (step.tool_name.getD "None") ++
                 "' requires higher permission level") }, [])
      else
        let pre : List RepoEvent := [.create, .mark_running]
        -- `execution_time_ms if execution_time_ms else None`: a zero
        -- duration is falsy and becomes None in the result dict
        let tms : Option Int := if elapsed ≠ 0 then some elapsed else none
        match t.outcome with
        | .retString s =>
          -- mark_completed in the try body, then again in `finally`
          (.ok { step_number := step.step_number,
                 description := step.description,
                 status := some "completed", output := some s, error := none,
                 execution_time_ms := tms, tool_name := step.tool_name },
           pre ++ [.mark_completed, .mark_completed])
        | .retToolError m =>
          -- mark_failed in the try body, then again in `finally`
          (.ok { step_number := step.step_number,
                 description := step.description,
                 status := some "failed", output := none, error := some m,
                 execution_time_ms := tms, tool_name := step.tool_name },
           pre ++ [.mark_failed, .mark_failed])
        | .retOther r =>
          -- status is still RUNNING in `finally`: no terminal write at all
          (.ok { step_number := step.step_number,
                 description := step.description,
                 status := some "running", output := none, error := some r,
                 execution_time_ms := tms, tool_name := step.tool_name },
           pre)
        | .raises _ =>
          -- except sets FAILED, `finally` writes mark_failed once, then
          -- building result_data raises UnboundLocalError on `output`
          (.error "UnboundLocalError: output", pre ++ [.mark_failed])

/-- C5 (code evaluated at the dispatched inputs): for a step that passes
the confirmation, lookup and permission checks, the terminal persistence
write is NOT unique — a string result produces two `mark_completed`
calls and a `ToolError` two `mark_failed` calls (the try-body write plus
the `finally` write); only the raising path writes exactly once. -/
theorem execute_step_terminal_writes :
    (execute_step { step_number := some 1, tool_name := some "shell" }
        (some { is_safe_for_user := true, outcome := .retString "ok" }) 5).2 =
      [.create, .mark_running, .mark_completed, .mark_completed] ∧
    (execute_step { step_number := some 1, tool_name := some "shell" }
        (some { is_safe_for_user := true, outcome := .retToolError "bad arg" }) 5).2 =
      [.create, .mark_running, .mark_failed, .mark_failed] ∧
    (execute_step { step_number := some 1, tool_name := some "shell" }
        (some { is_safe_for_user := true, outcome := .raises "boom" }) 5).2 =
      [.create, .mark_running, .mark_failed] := by
  refine ⟨rfl, rfl, rfl⟩

/-! ## Checkpointer — `src/src/memory/checkpointer.py`

`PostgresCheckpointSaver.aput` / `aget` with the database modelled as
the list of `agent_states` rows in insertion order (`created_at` is the
insertion index, strictly increasing, which is what
`ORDER BY created_at DESC LIMIT 1` consumes).  The value universe for
checkpointed state adds to the JSON values the special types
`_serialize_state` singles out: `datetime` (stored by `isoformat`),
`UUID` (stored by `str`) and pydantic models (stored by `model_dump`);
`_deserialize_state` copies entries verbatim.  The two `uuid4()` calls
in `aput` are the explicit `fresh…` arguments. -/

mutual

/-- A Python value reachable inside a checkpointed state. -/
inductive CkptVal where
  | vNull
  | vBool (b : Bool)
  | vInt (n : Int)
  | vStr (s : String)
  | vDatetime (iso : String)
  | vUUID (s : String)
  | vModel (dump : CkptDict)
  | vList (l : CkptList)
  | vDict (d : CkptDict)

/-- A Python list of checkpointable values. -/
inductive CkptList where
  | nil
  | cons (hd : CkptVal) (tl : CkptList)

/-- A Python dict of checkpointable values (insertion order). -/
inductive CkptDict where
  | nil
  | cons (key : String) (val : CkptVal) (tl : CkptDict)

end

/-- First value bound to a key, as Python dict lookup (keys are unique
in a Python dict). -/
def CkptDict.find : CkptDict → String → Option CkptVal
  | .nil, _ => none
  | .cons k v tl, key => if k = key then some v else tl.find key

mutual

/-- The transformation `_serialize_state` applies to each dict value
(`checkpointer.py`, lines 108–121): `datetime` → iso string, `UUID` →
string, pydantic model → its `model_dump` dict, dicts recursively,
lists item-wise, everything else unchanged. -/
def serialize_entry : CkptVal → CkptVal
  | .vDatetime iso => .vStr iso
  | .vUUID s => .vStr s
  | .vModel dump => .vDict dump
  | .vDict d => .vDict (serialize_state d)
  | .vList l => .vList (serialize_items l)
  | .vNull => .vNull
  | .vBool b => .vBool b
  | .vInt n => .vInt n
  | .vStr s => .vStr s

/-- Item-wise serialization of a list: only dict items are recursed
into; any other item (a `datetime` included) passes through unchanged. -/
def serialize_items : CkptList → CkptList
  | .nil => .nil
  | .cons x xs => .cons (serialize_item x) (serialize_items xs)

/-- One list item (`checkpointer.py`, lines 116–119). -/
def serialize_item : CkptVal → CkptVal
  | .vDict d => .vDict (serialize_state d)
  | .vNull => .vNull
  | .vBool b => .vBool b
  | .vInt n => .vInt n
  | .vStr s => .vStr s
  | .vDatetime iso => .vDatetime iso
  | .vUUID s => .vUUID s
  | .vModel dump => .vModel dump
  | .vList l => .vList l

/-- `PostgresCheckpointSaver._serialize_state` (lines 95–122). -/
def serialize_state : CkptDict → CkptDict
  | .nil => .nil
  | .cons k v tl => .cons k (serialize_entry v) (serialize_state tl)

end

/-- `PostgresCheckpointSaver._deserialize_state` (lines 124–137): a
verbatim entry-by-entry copy. -/
def deserialize_state : CkptDict → CkptDict
  | .nil => .nil
  | .cons k v tl => .cons k v (deserialize_state tl)

mutual

/-- A value containing no `datetime`, `UUID` or pydantic model — the
shape every field of a (JSON-plain) `AgentState` snapshot has. -/
def plainV : CkptVal → Bool
  | .vNull => true
  | .vBool _ => true
  | .vInt _ => true
  | .vStr _ => true
  | .vDatetime _ => false
  | .vUUID _ => false
  | .vModel _ => false
  | .vList l => plainL l
  | .vDict d => plainD d

/-- All items plain. -/
def plainL : CkptList → Bool
  | .nil => true
  | .cons x xs => plainV x && plainL xs

/-- All values plain. -/
def plainD : CkptDict → Bool
  | .nil => true
  | .cons _ v tl => plainV v && plainD tl

end

mutual

/-- Serialization fixes every plain value. -/
theorem serialize_entry_plain : ∀ v : CkptVal, plainV v = true → serialize_entry v = v
  | .vNull, _ => rfl
  | .vBool _, _ => rfl
  | .vInt _, _ => rfl
  | .vStr _, _ => rfl
  | .vDatetime _, h => by simp [plainV] at h
  | .vUUID _, h => by simp [plainV] at h
  | .vModel _, h => by simp [plainV] at h
  | .vList l, h => by
    rw [serialize_entry, serialize_items_plain l (by simpa [plainV] using h)]
  | .vDict d, h => by
    rw [serialize_entry, serialize_state_plain d (by simpa [plainV] using h)]

/-- Item-wise serialization fixes plain lists. -/
theorem serialize_items_plain : ∀ l : CkptList, plainL l = true → serialize_items l = l
  | .nil, _ => rfl
  | .cons x xs, h => by
    have h2 := Bool.and_eq_true_iff.mp (by simpa [plainL] using h)
    rw [serialize_items, serialize_item_plain x h2.1, serialize_items_plain xs h2.2]

/-- Item serialization fixes plain items. -/
theorem serialize_item_plain : ∀ v : CkptVal, plainV v = true → serialize_item v = v
  | .vNull, _ => rfl
  | .vBool _, _ => rfl
  | .vInt _, _ => rfl
  | .vStr _, _ => rfl
  | .vDatetime _, _ => rfl
  | .vUUID _, _ => rfl
  | .vModel _, _ => rfl
  | .vList _, _ => rfl
  | .vDict d, h => by
    rw [serialize_item, serialize_state_plain d (by simpa [plainV] using h)]

/-- `_serialize_state` fixes plain dicts. -/
theorem serialize_state_plain : ∀ d : CkptDict, plainD d = true → serialize_state d = d
  | .nil, _ => rfl
  | .cons k v tl, h => by
    have h2 := Bool.and_eq_true_iff.mp (by simpa [plainD] using h)
    rw [serialize_state, serialize_entry_plain v h2.1, serialize_state_plain tl h2.2]

end

/-- A LangGraph `Checkpoint` dict (`id`, `channel_values`,
`channel_versions`, `versions_seen`, `pending_sends`). -/
structure CheckpointL where
  id : String
  channel_values : CkptDict
  channel_versions : CkptVal := .vDict .nil
  versions_seen : CkptVal := .vDict .nil
  pending_sends : CkptVal := .vList .nil

/-- A LangGraph `CheckpointMetadata` dict; `writes` is the dict of
pending node writes. -/
structure CheckpointMetaL where
  source : CkptVal := .vNull
  step : CkptVal := .vNull
  writes : CkptDict := .nil
  parents : CkptVal := .vNull

/-- `_serialize_checkpoint` (lines 58–75): channel values serialized,
everything else copied. -/
def serialize_checkpoint (c : CheckpointL) : CheckpointL :=
  { c with channel_values := serialize_state c.channel_values }

/-- `_deserialize_checkpoint` (lines 77–93). -/
def deserialize_checkpoint (c : CheckpointL) : CheckpointL :=
  { c with channel_values := deserialize_state c.channel_values }

/-- `_serialize_metadata` (lines 139–154): the four keys, copied. -/
def serialize_metadata (m : CheckpointMetaL) : CheckpointMetaL :=
  { source := m.source, step := m.step, writes := m.writes, parents := m.parents }

/-- `_deserialize_metadata` (lines 156–171). -/
def deserialize_metadata (m : CheckpointMetaL) : CheckpointMetaL :=
  { source := m.source, step := m.step, writes := m.writes, parents := m.parents }

/-- The JSON blob stored in the `state` column of one `agent_states`
row (`checkpointer.py`, lines 234–239). -/
structure StateBlob where
  checkpoint : CheckpointL
  metadata : CheckpointMetaL
  parent_checkpoint_id : Option String
  next_node : Option String

/-- One `agent_states` row; `created_at` is the insertion index. -/
structure DBRow where
  id : String
  session_id : String
  thread_id : String
  state : StateBlob
  created_at : Nat

/-- The database: the `sessions` table (ids only) and the
`agent_states` rows in insertion order. -/
structure CheckpointDB where
  sessions : List String := []
  states : List DBRow := []

/-- The `configurable` part of a `RunnableConfig`. -/
structure RunnableConfigL where
  thread_id : Option String := none
  checkpoint_id : Option String := none

/-- `next_node` derivation in `aput` (lines 205–209): first key of the
metadata's `writes` dict when it is non-empty. -/
def next_node_of (m : CheckpointMetaL) : Option String :=
  match m.writes with
  | .nil => none
  | .cons k _ _ => some k

/-- `PostgresCheckpointSaver.aput` (lines 173–257): create the session
row if missing, insert an immutable checkpoint row, commit, and return
the config extended with the new checkpoint id.  `freshThreadId` /
`freshCkptId` are the two `uuid4()` draws.  The schema declares
`agent_states.thread_id` UNIQUE (`src/src/db/models.py`, line 243, and
migration `001_initial_schema.py`), so when the table already holds a
row for the thread the commit raises `IntegrityError`; `aput` rolls the
transaction back (the session row included, leaving the database
unchanged) and re-raises. -/
def aput (db : CheckpointDB) (config : RunnableConfigL) (checkpoint : CheckpointL)
    (metadata : CheckpointMetaL) (freshThreadId freshCkptId : String) :
    Except String (CheckpointDB × RunnableConfigL) :=
  let thread_id := config.thread_id.getD freshThreadId
  if db.states.any (fun r => r.thread_id == thread_id) then
    .error "IntegrityError"
  else
    let row : DBRow := {
      id := freshCkptId,
      session_id := thread_id,
      thread_id := thread_id,
      state := {
        checkpoint := serialize_checkpoint checkpoint,
        metadata := serialize_metadata metadata,
        parent_checkpoint_id := config.checkpoint_id,
        next_node := next_node_of metadata },
      created_at := db.states.length }
    .ok ({ sessions :=
            if db.sessions.contains thread_id then db.sessions
            else db.sessions ++ [thread_id],
           states := db.states ++ [row] },
         { thread_id := some thread_id, checkpoint_id := some freshCkptId })

/-- `PostgresCheckpointSaver.aget` (lines 259–311): by checkpoint id
when the config has one (`scalar_one_or_none`: an error on a duplicate
id), else the latest row of the thread, else `(None, None)`. -/
def aget (db : CheckpointDB) (config : RunnableConfigL) :
    Except String (Option (CheckpointL × CheckpointMetaL)) :=
  match config.checkpoint_id with
  | some cid =>
    match db.states.filter (fun r => r.id == cid) with
    | [] => .ok none
    | [r] => .ok (some (deserialize_checkpoint r.state.checkpoint,
                        deserialize_metadata r.state.metadata))
    | _ => .error "MultipleResultsFound"
  | none =>
    match config.thread_id with
    | some tid =>
      match (db.states.filter (fun r => r.thread_id == tid)).getLast? with
      | some r => .ok (some (deserialize_checkpoint r.state.checkpoint,
                             deserialize_metadata r.state.metadata))
      | none => .ok none
    | none => .ok none

/-- `_deserialize_state` is an entry-by-entry copy, hence the identity. -/
theorem deserialize_state_id : ∀ d : CkptDict, deserialize_state d = d
  | .nil => rfl
  | .cons k v tl => by rw [deserialize_state, deserialize_state_id tl]

/-- The round-trip composition: `aput`, then `aget` with the config it
returned (which carries the new checkpoint id). -/
def put_then_get (db : CheckpointDB) (config : RunnableConfigL)
    (checkpoint : CheckpointL) (metadata : CheckpointMetaL)
    (freshThreadId freshCkptId : String) :
    Except String (Option (CheckpointL × CheckpointMetaL)) :=
  (aput db config checkpoint metadata freshThreadId freshCkptId).bind
    (fun p => aget p.1 p.2)

/-- The round-trip composition reading back by the thread alone (no
checkpoint id in the config). -/
def put_then_get_thread (db : CheckpointDB) (config : RunnableConfigL)
    (checkpoint : CheckpointL) (metadata : CheckpointMetaL)
    (freshThreadId freshCkptId : String) :
    Except String (Option (CheckpointL × CheckpointMetaL)) :=
  (aput db config checkpoint metadata freshThreadId freshCkptId).bind
    (fun p => aget p.1 { thread_id := p.2.thread_id, checkpoint_id := none })

/-- C9 counterexample: a second `aput` for a thread that already has a
checkpoint row raises `IntegrityError` (`agent_states.thread_id` is
UNIQUE), so the claimed save-then-read round-trip does not even reach
`aget` — the original claim fails on every snapshot saved to an
already-checkpointed thread. -/
theorem checkpoint_second_put_integrity_error :
    ((aput {} { thread_id := some "thread-1" }
        { id := "c0", channel_values := .cons "current_step" (.vInt 0) .nil }
        {} "u1" "ck1").bind (fun p =>
      aput p.1 { thread_id := some "thread-1" }
        { id := "c1", channel_values := .cons "current_step" (.vInt 1) .nil }
        {} "u2" "ck2")) = .error "IntegrityError" := rfl

/-- C9 as amended: for a thread's FIRST checkpoint — the `agent_states`
table holds no row for the thread, so the UNIQUE `thread_id` constraint
admits the insert — `aput` succeeds and `aget` (through the returned
config, or by the thread alone) reconstructs a checkpoint whose
channel values, `messages`, `intent`, `plan` and `current_step`
included, equal the original exactly when they are JSON-plain (which
the declared `AgentState` fields are); a put for a thread that already
has a checkpoint row raises `IntegrityError` instead of storing. -/
theorem checkpoint_roundtrip (db : CheckpointDB) (config : RunnableConfigL)
    (checkpoint : CheckpointL) (metadata : CheckpointMetaL)
    (freshThreadId freshCkptId : String)
    (hthread : db.states.any
      (fun r => r.thread_id == config.thread_id.getD freshThreadId) = false)
    (hfresh : db.states.all (fun r => !(r.id == freshCkptId)) = true)
    (hplain : plainD checkpoint.channel_values = true) :
    put_then_get db config checkpoint metadata freshThreadId freshCkptId =
      .ok (some (checkpoint, metadata)) ∧
    put_then_get_thread db config checkpoint metadata freshThreadId freshCkptId =
      .ok (some (checkpoint, metadata)) := by
  have hckpt : deserialize_checkpoint (serialize_checkpoint checkpoint) = checkpoint := by
    unfold deserialize_checkpoint serialize_checkpoint
    rw [deserialize_state_id, serialize_state_plain checkpoint.channel_values hplain]
  have hmeta : deserialize_metadata (serialize_metadata metadata) = metadata := rfl
  have hnil : db.states.filter (fun r => r.id == freshCkptId) = [] := by
    rw [List.filter_eq_nil_iff]
    intro r hr
    have h := List.all_eq_true.mp hfresh r hr
    simpa using h
  constructor
  · simp only [put_then_get, aput, hthread, Bool.false_eq_true, if_false,
      Except.bind, aget]
    rw [List.filter_append, hnil]
    simp [hckpt, hmeta]
  · simp only [put_then_get_thread, aput, hthread, Bool.false_eq_true, if_false,
      Except.bind, aget]
    rw [List.filter_append]
    simp [List.getLast?_concat, hckpt, hmeta]

/-- Witness for C9 as amended: a concrete snapshot (one user message,
intent `workflow`, a one-step plan, cursor 2) stored as the first
checkpoint of its thread in an empty database and read back through the
returned config. -/
theorem checkpoint_roundtrip_witness :
    put_then_get {} { thread_id := some "thread-1" }
        { id := "c0",
          channel_values :=
            .cons "messages"
              (.vList (.cons (.vDict (.cons "role" (.vStr "user")
                (.cons "content" (.vStr "organize my files") .nil))) .nil))
              (.cons "intent" (.vStr "workflow")
                (.cons "plan"
                  (.vDict (.cons "goal" (.vStr "organize")
                    (.cons "steps" (.vList .nil) .nil)))
                  (.cons "current_step" (.vInt 2) .nil))) }
        { source := .vStr "loop", step := .vInt 1,
          writes := .cons "executor" .vNull .nil }
        "unused-fresh-thread" "ckpt-1" =
      .ok (some
        ({ id := "c0",
           channel_values :=
             .cons "messages"
               (.vList (.cons (.vDict (.cons "role" (.vStr "user")
                 (.cons "content" (.vStr "organize my files") .nil))) .nil))
               (.cons "intent" (.vStr "workflow")
                 (.cons "plan"
                   (.vDict (.cons "goal" (.vStr "organize")
                     (.cons "steps" (.vList .nil) .nil)))
                   (.cons "current_step" (.vInt 2) .nil))) },
         { source := .vStr "loop", step := .vInt 1,
           writes := .cons "executor" .vNull .nil })) :=
  (checkpoint_roundtrip {} { thread_id := some "thread-1" } _ _
    "unused-fresh-thread" "ckpt-1" (by decide) (by decide) (by decide)).1

end Orbit
